import Mathlib

/-
Verification of the Helios temporal-simulation core and its radiometric kernel.

Shallow embedding of:
  * src/maths/EnergyMaths.cpp   — radiometric physics (doubles modelled as ℝ);
  * src/sim/core/Simulation.cpp — GPS clock, speed factor, per-step execution,
    callback cadence of the main loop and the shutdown sequence (double clock
    arithmetic on exact integer nanoseconds modelled as ℚ; buffers and event
    traces modelled as lists).

Mathematical constants from MathConstants.h are taken from the documented
formulas in EnergyMaths.h (2π², 4π, π/2).
-/

-- ***  ENERGY MATHS (src/maths/EnergyMaths.cpp)  *** --

/-- The constant 2π² used by the space-distribution equation. -/
noncomputable def PI_SQUARED_2 : ℝ := 2 * Real.pi ^ 2

/-- The constant π/2 used by the Phong reflection model. -/
noncomputable def PI_HALF : ℝ := Real.pi / 2

/-- EnergyMaths::calcEmittedPower: space distribution equation
`I0 / exp(2π² r² w0² / (λ² (R0² + R²)))`, written as in the source. -/
noncomputable def calcEmittedPower (I0 lambda R R0 r w0 : ℝ) : ℝ :=
  let denom := lambda * lambda * (R0 * R0 + R * R)
  I0 / Real.exp (PI_SQUARED_2 * r * r * w0 * w0 / denom)

/-- EnergyMaths::calcEmittedPowerLegacy: beam-width-based form
`ω = λR/(πw0²)`, `ω0 = λR0/(πw0²)`, `w = w0·√(ω0² + ω²)`,
result `I0·exp(-2r²/w²)`, written as in the source. -/
noncomputable def calcEmittedPowerLegacy (I0 lambda R R0 r w0 : ℝ) : ℝ :=
  let denom := Real.pi * w0 * w0
  let omega := lambda * R / denom
  let omega0 := lambda * R0 / denom
  let w := w0 * Real.sqrt (omega0 * omega0 + omega * omega)
  I0 * Real.exp (-2 * r * r / (w * w))

/-- EnergyMaths::calcAtmosphericFactor: `exp(-2·R·ae)`, the energy left after
attenuation by air particles. -/
noncomputable def calcAtmosphericFactor (R ae : ℝ) : ℝ :=
  Real.exp (-2 * R * ae)

/-- EnergyMaths::phongBDRF: diffuse term `(1-ks)·cos(φ)` plus specular term
`ks·|cos(φ*)|^Ns` with `φ* = φ` when `φ ≤ π/2` and `φ - π/2` otherwise,
written as in the source. -/
noncomputable def phongBDRF
    (incidenceAngle targetSpecularity targetSpecularExponent : ℝ) : ℝ :=
  let ks := targetSpecularity
  let kd := 1 - ks
  let diffuse := kd * Real.cos incidenceAngle
  let specularAngle :=
    if incidenceAngle ≤ PI_HALF then incidenceAngle else incidenceAngle - PI_HALF
  let specular := ks * |Real.cos specularAngle| ^ targetSpecularExponent
  diffuse + specular

/-- The reflectance law exactly as the specification words it (spec §4.1):
diffuse term `(1-ks)·cos(φ)`; specular angle `φ* = φ` if `φ ≤ π/2` else
`φ - π/2`; specular term `ks·|cos(φ*)|^Ns`; result is their sum. -/
noncomputable def reflectanceSpec (phi ks Ns : ℝ) : ℝ :=
  (1 - ks) * Real.cos phi +
    ks * |Real.cos (if phi ≤ Real.pi / 2 then phi else phi - Real.pi / 2)| ^ Ns

-- ***  GPS CLOCK (Simulation.cpp: calcCurrentGpsTime, doSimStep)  *** --

/-- One GPS week in nanoseconds: the literal 604800000000000 of
Simulation::doSimStep. -/
def weekNs : ℚ := 604800000000000

/-- Deterministic core of Simulation::calcCurrentGpsTime: given the resolved
POSIX seconds `now`, return `((now - 315964809) % 604800) * 1e9` nanoseconds,
with `%` the C++ truncated remainder (Int.tmod). -/
def calcCurrentGpsTime (now : ℤ) : ℚ :=
  (((now - 315964809).tmod 604800 : ℤ) : ℚ) * 1000000000

/-- Clock advance of Simulation::doSimStep (lines 89-91): add the per-step
delta, then subtract one week when the result is strictly greater than
`weekNs`. -/
def advanceGpsTime (currentGpsTime_ns stepGpsTime_ns : ℚ) : ℚ :=
  let t := currentGpsTime_ns + stepGpsTime_ns
  if t > weekNs then t - weekNs else t

-- ***  PER-STEP EXECUTION (Simulation::doSimStep)  *** --

/-- Observable actions of one simulation step. -/
inductive StepEvent
  | legComplete
  | platformStep
  | scannerStep (legIndex : ℕ) (gpsTime : ℚ)
  | sceneStep
deriving DecidableEq

/-- The part of the Simulation state touched by doSimStep, with an event trace
recording the collaborator calls. -/
structure StepState where
  currentGpsTime_ns : ℚ
  mCurrentLegIndex : ℕ
  events : List StepEvent
deriving DecidableEq

/-- Simulation::doSimStep: when the scanner head has completed its rotation and
the platform has reached its waypoint, only the leg-completion handler runs;
otherwise platform, scanner (bound to the current leg index and the current
clock value), scene and finally the clock advance, in that order. -/
def doSimStep (rotateCompleted waypointReached : Bool) (stepGpsTime_ns : ℚ)
    (s : StepState) : StepState :=
  if rotateCompleted && waypointReached then
    { s with events := s.events ++ [StepEvent.legComplete] }
  else
    { currentGpsTime_ns := advanceGpsTime s.currentGpsTime_ns stepGpsTime_ns,
      mCurrentLegIndex := s.mCurrentLegIndex,
      events := s.events ++
        [StepEvent.platformStep,
         StepEvent.scannerStep s.mCurrentLegIndex s.currentGpsTime_ns,
         StepEvent.sceneStep] }

-- ***  SPEED FACTOR (Simulation::setSimSpeedFactor)  *** --

/-- Simulation::setSimSpeedFactor: a non-positive factor becomes 0.0001, a
factor above 10000 becomes 10000; the stored effective value is returned. -/
def setSimSpeedFactor (factor : ℚ) : ℚ :=
  let f1 := if factor ≤ 0 then (1 / 10000 : ℚ) else factor
  if f1 > 10000 then 10000 else f1

/-- Clamping to the interval [0.0001, 10000] exactly as the specification words
it (spec §4.3). -/
def clampSpeedFactor (factor : ℚ) : ℚ :=
  max (1 / 10000) (min factor 10000)

-- ***  FIXED-START PARSING (Simulation::calcCurrentGpsTime)  *** --

/-- std::stol semantics as used on the fixed-start string: skip leading spaces,
accept an optional sign, then require at least one decimal digit; trailing
non-digit characters are ignored. Returns none where std::stol throws. -/
def parsePosixLong (cs : List Char) : Option ℤ :=
  let trimmed := cs.dropWhile (fun c => c = ' ')
  let signAndRest : ℤ × List Char :=
    match trimmed with
    | '-' :: rest => (-1, rest)
    | '+' :: rest => (1, rest)
    | rest => (1, rest)
  let digits := signAndRest.2.takeWhile Char.isDigit
  if digits.isEmpty then none
  else
    some (signAndRest.1 *
      (digits.foldl (fun acc c => acc * 10 + (c.toNat - 48)) 0 : ℕ))

/-- Days between 1970-01-01 and the civil date y-m-d (Gregorian calendar,
Hinnant's days-from-civil algorithm). -/
def daysFromCivil (y m d : ℤ) : ℤ :=
  let y' := if m ≤ 2 then y - 1 else y
  let era := (if 0 ≤ y' then y' else y' - 399) / 400
  let yoe := y' - era * 400
  let mp := (m + 9) % 12
  let doy := (153 * mp + 2) / 5 + d - 1
  let doe := yoe * 365 + yoe / 4 - yoe / 100 + doy
  era * 146097 + doe - 719468

/-- Modelled from the spec: DateTimeUtils::dateTimeStrToSeconds is not under
src/; per spec §4.2 it parses an exact "YYYY-MM-DD hh:mm:ss" date-time and
converts it to POSIX seconds, failing on any other shape. -/
def dateTimeStrToSeconds (cs : List Char) : Option ℤ :=
  match cs with
  | [y1, y2, y3, y4, '-', m1, m2, '-', d1, d2, ' ',
     h1, h2, ':', n1, n2, ':', s1, s2] =>
    if [y1, y2, y3, y4, m1, m2, d1, d2, h1, h2, n1, n2, s1, s2].all Char.isDigit
    then
      let num := fun (ds : List Char) =>
        ((ds.foldl (fun acc c => acc * 10 + (c.toNat - 48)) 0 : ℕ) : ℤ)
      some (daysFromCivil (num [y1, y2, y3, y4]) (num [m1, m2]) (num [d1, d2])
              * 86400
            + num [h1, h2] * 3600 + num [n1, n2] * 60 + num [s1, s2])
    else none
  | _ => none

/-- The fatal error text logged by Simulation::calcCurrentGpsTime: it carries
the offending input and the accepted formats. -/
def errMsg (fixedGpsTimeStart : List Char) : List Char :=
  ("Provided GPS start time was \"").toList ++ fixedGpsTimeStart ++
  ("\"\n").toList ++
  ("Please, ensure the format is either a POSIX timestamp, an empty string \n"
    ).toList ++
  ("or a datetime with EXACT format: \"YYYY-MM-DD hh:mm:ss\"").toList

/-- Simulation::calcCurrentGpsTime, clock-origin resolution: a non-empty fixed
start containing a colon is parsed as a date-time, otherwise as a POSIX-seconds
literal; a parse failure is logged and propagated as an error; an empty fixed
start uses the wall clock. -/
def calcCurrentGpsTimeE (fixedGpsTimeStart : List Char)
    (wallClockSeconds : ℤ) : Except (List Char) ℚ :=
  if fixedGpsTimeStart ≠ [] then
    if fixedGpsTimeStart.contains ':' then
      match dateTimeStrToSeconds fixedGpsTimeStart with
      | some now => Except.ok (calcCurrentGpsTime now)
      | none => Except.error (errMsg fixedGpsTimeStart)
    else
      match parsePosixLong fixedGpsTimeStart with
      | some now => Except.ok (calcCurrentGpsTime now)
      | none => Except.error (errMsg fixedGpsTimeStart)
  else
    Except.ok (calcCurrentGpsTime wallClockSeconds)

/-- Whether clock-origin resolution succeeded. -/
def isOkE : Except (List Char) ℚ → Bool
  | Except.ok _ => true
  | Except.error _ => false

/-- The propagated error text of a failed clock-origin resolution (empty when
it succeeded). -/
def errOf : Except (List Char) ℚ → List Char
  | Except.ok _ => []
  | Except.error e => e

-- ***  SHUTDOWN SEQUENCE (Simulation::shutdown, tail of Simulation::start)  *** --

/-- Observable actions at loop exit. -/
inductive SimEvent
  | scannerFinished
  | markFinished
  | callbackInvoked (measurements trajectories : List ℕ) (outPath : String)
deriving DecidableEq

/-- The part of the Simulation state touched at loop exit: the scanner's cycle
buffers, the finished flag and an event trace. -/
structure ShutdownState where
  cycleMeasurements : List ℕ
  cycleTrajectories : List ℕ
  events : List SimEvent
  finished : Bool
deriving DecidableEq

/-- The output path passed to the callback: the measurement writer's resolved
path when file export is enabled, the empty string otherwise. -/
def resolveOutPath (exportToFile : Bool)
    (measurementWriterOutputPath : String) : String :=
  if exportToFile then measurementWriterOutputPath else ""

/-- Simulation::shutdown: set the finished flag, then — when a callback is
registered and the callback frequency is positive — invoke the callback with
the cycle buffers and the resolved output path. The buffers are not cleared
here. -/
def shutdown (hasCallback : Bool) (callbackFrequency : ℕ) (exportToFile : Bool)
    (measurementWriterOutputPath : String) (s : ShutdownState) : ShutdownState :=
  let s1 : ShutdownState :=
    { s with finished := true, events := s.events ++ [SimEvent.markFinished] }
  if hasCallback = true ∧ 0 < callbackFrequency then
    { s1 with events := s1.events ++
        [SimEvent.callbackInvoked s1.cycleMeasurements s1.cycleTrajectories
          (resolveOutPath exportToFile measurementWriterOutputPath)] }
  else s1

/-- Tail of Simulation::start after the main loop exits (lines 184-204):
reports, then Scanner::onSimulationFinished, then Simulation::shutdown. -/
def startExitTail (hasCallback : Bool) (callbackFrequency : ℕ)
    (exportToFile : Bool) (measurementWriterOutputPath : String)
    (s : ShutdownState) : ShutdownState :=
  shutdown hasCallback callbackFrequency exportToFile measurementWriterOutputPath
    { s with events := s.events ++ [SimEvent.scannerFinished] }

-- ***  MAIN-LOOP CALLBACK CADENCE (Simulation::start, lines 144-176)  *** --

/-- The loop-local state of Simulation::start: the iteration counter `iter`,
the scanner's cycle buffers, and the list of callback deliveries so far (each
one the buffer pair passed to the callback). -/
structure LoopState where
  iter : ℕ
  cycleMeasurements : List ℕ
  cycleTrajectories : List ℕ
  flushes : List (List ℕ × List ℕ)
deriving DecidableEq

/-- One iteration of the main loop body of Simulation::start: the step adds
its produced measurement and trajectory records to the cycle buffers, `iter`
increments, and when `iter - 1` equals the callback frequency the callback is
delivered (when registered) with the accumulated buffers, which are then
cleared, and `iter` resets to 1. -/
def loopBody (hasCallback : Bool) (callbackFrequency : ℕ) (s : LoopState)
    (step : List ℕ × List ℕ) : LoopState :=
  let s1 : LoopState :=
    { s with cycleMeasurements := s.cycleMeasurements ++ step.1,
             cycleTrajectories := s.cycleTrajectories ++ step.2,
             iter := s.iter + 1 }
  if s1.iter - 1 = callbackFrequency then
    let s2 : LoopState :=
      if hasCallback then
        { s1 with
            flushes := s1.flushes ++
              [(s1.cycleMeasurements, s1.cycleTrajectories)],
            cycleMeasurements := [], cycleTrajectories := [] }
      else s1
    { s2 with iter := 1 }
  else s1

/-- The main loop of Simulation::start run over a list of steps, each step
described by the records it produces. -/
def runLoop (hasCallback : Bool) (callbackFrequency : ℕ) (s : LoopState)
    (steps : List (List ℕ × List ℕ)) : LoopState :=
  steps.foldl (loopBody hasCallback callbackFrequency) s

/-- The loop state at loop entry: `iter = 1`, empty buffers, no deliveries. -/
def initLoopState : LoopState := ⟨1, [], [], []⟩
-- ***  THEOREMS  *** --

/-- C1 (counterexample): the claimed invariant `currentGpsTime_ns < 604800e9`
fails as stated. From the in-range clock value 604799e9 ns, a doSimStep advance
by the in-range delta 1e9 ns lands exactly on 604800e9 ns; the wrap test of
doSimStep is strict (`>`), so the week is not subtracted and the resulting
clock value is not below the week length. -/
theorem C1_boundary_counterexample :
    0 ≤ (604799000000000 : ℚ) ∧ (604799000000000 : ℚ) < weekNs ∧
    0 < (1000000000 : ℚ) ∧ (1000000000 : ℚ) < weekNs ∧
    ¬ ((doSimStep false false 1000000000
          ⟨604799000000000, 0, []⟩).currentGpsTime_ns < weekNs) := by
  refine ⟨by norm_num, by norm_num [weekNs], by norm_num, by norm_num [weekNs], ?_⟩
  norm_num [doSimStep, advanceGpsTime, weekNs]

/-- C1 (amended): for a clock origin at or after the GPS epoch offset,
construction yields a value in [0, 604800e9); every clock advance whose
per-step delta lies in (0, week) preserves `0 ≤ currentGpsTime_ns ≤ 604800e9`
— the upper bound is inclusive, reached exactly when a step lands on the
boundary — and an advance strictly past the week length wraps by subtracting
one week exactly once, while an advance to at most the week length does not
wrap. -/
theorem C1_clock_invariant (now : ℤ) (t d : ℚ)
    (hnow : 315964809 ≤ now) (ht0 : 0 ≤ t) (ht1 : t ≤ weekNs)
    (hd0 : 0 < d) (hd1 : d < weekNs) :
    (0 ≤ calcCurrentGpsTime now ∧ calcCurrentGpsTime now < weekNs) ∧
    (0 ≤ advanceGpsTime t d ∧ advanceGpsTime t d ≤ weekNs) ∧
    (weekNs < t + d → advanceGpsTime t d = t + d - weekNs) ∧
    (t + d ≤ weekNs → advanceGpsTime t d = t + d) := by
  have hmod0 : 0 ≤ (now - 315964809).tmod 604800 := by
    rw [Int.tmod_eq_emod (by omega) (by norm_num)]
    exact Int.emod_nonneg _ (by norm_num)
  have hmod1 : (now - 315964809).tmod 604800 < 604800 := by
    rw [Int.tmod_eq_emod (by omega) (by norm_num)]
    exact Int.emod_lt_of_pos _ (by norm_num)
  refine ⟨⟨?_, ?_⟩, ⟨?_, ?_⟩, ?_, ?_⟩
  · unfold calcCurrentGpsTime
    have : (0 : ℚ) ≤ ((now - 315964809).tmod 604800 : ℤ) := by exact_mod_cast hmod0
    nlinarith
  · unfold calcCurrentGpsTime weekNs
    have : (((now - 315964809).tmod 604800 : ℤ) : ℚ) < 604800 := by
      exact_mod_cast hmod1
    nlinarith
  · unfold advanceGpsTime
    dsimp only
    split_ifs with h <;> linarith
  · unfold advanceGpsTime
    dsimp only
    split_ifs with h <;> linarith
  · intro hlt
    unfold advanceGpsTime
    dsimp only
    rw [if_pos hlt]
  · intro hle
    unfold advanceGpsTime
    dsimp only
    rw [if_neg (by exact not_lt.mpr hle)]

/-- C1 (witness): the amended invariant instantiated at the GPS epoch origin
with a one-second step. -/
theorem C1_clock_invariant_witness :
    (315964809 : ℤ) ≤ 315964809 ∧ (0 : ℚ) ≤ 0 ∧ (0 : ℚ) ≤ weekNs ∧
    (0 : ℚ) < 1000000000 ∧ (1000000000 : ℚ) < weekNs ∧
    ((0 ≤ calcCurrentGpsTime 315964809 ∧ calcCurrentGpsTime 315964809 < weekNs) ∧
     (0 ≤ advanceGpsTime 0 1000000000 ∧ advanceGpsTime 0 1000000000 ≤ weekNs) ∧
     (weekNs < 0 + 1000000000 → advanceGpsTime 0 1000000000 = 0 + 1000000000 - weekNs) ∧
     (0 + 1000000000 ≤ weekNs → advanceGpsTime 0 1000000000 = 0 + 1000000000)) :=
  ⟨le_refl _, le_refl _, by norm_num [weekNs], by norm_num, by norm_num [weekNs],
   C1_clock_invariant 315964809 0 1000000000 (le_refl _) (le_refl _)
     (by norm_num [weekNs]) (by norm_num) (by norm_num [weekNs])⟩

/-- C2 (counterexample): the stored speed factor is not the clamp of the input
to [0.0001, 10000]: the positive input 0.00005 is below the lower bound, the
clamp raises it to 0.0001, but setSimSpeedFactor stores it unchanged. -/
theorem C2_counterexample :
    setSimSpeedFactor (1 / 20000) = 1 / 20000 ∧
    clampSpeedFactor (1 / 20000) = 1 / 10000 ∧
    setSimSpeedFactor (1 / 20000) ≠ clampSpeedFactor (1 / 20000) := by
  refine ⟨?_, ?_, ?_⟩ <;> norm_num [setSimSpeedFactor, clampSpeedFactor]

/-- C2 (amended): setSimSpeedFactor stores 0.0001 for any non-positive input
and min(input, 10000) for any positive input — so positive inputs below 0.0001
are stored unchanged rather than clamped up — and in particular input 0 yields
0.0001, input 20000 yields 10000 and input 5 yields 5, silently. -/
theorem C2_speedFactor (factor : ℚ) :
    setSimSpeedFactor factor =
      (if factor ≤ 0 then 1 / 10000 else min factor 10000) ∧
    setSimSpeedFactor 0 = 1 / 10000 ∧
    setSimSpeedFactor 20000 = 10000 ∧
    setSimSpeedFactor 5 = 5 := by
  refine ⟨?_, by norm_num [setSimSpeedFactor], by norm_num [setSimSpeedFactor],
          by norm_num [setSimSpeedFactor]⟩
  unfold setSimSpeedFactor
  dsimp only
  by_cases h0 : factor ≤ 0
  · rw [if_pos h0, if_pos h0, if_neg (by norm_num)]
  · rw [if_neg h0, if_neg h0]
    by_cases h1 : factor > 10000
    · rw [if_pos h1]
      exact (min_eq_right (le_of_lt h1)).symm
    · rw [if_neg h1, min_eq_left (not_lt.mp h1)]

/-- C7: on a step where the scanner head's rotation is complete and the
platform's waypoint is reached, doSimStep only runs the leg-completion handler:
the clock value and leg index are unchanged and no platform, scanner or scene
step event is emitted. -/
theorem C7_legCompletion (rotateCompleted waypointReached : Bool)
    (stepGpsTime_ns : ℚ) (s : StepState)
    (hrot : rotateCompleted = true) (hwp : waypointReached = true) :
    (doSimStep rotateCompleted waypointReached stepGpsTime_ns s).currentGpsTime_ns
      = s.currentGpsTime_ns ∧
    (doSimStep rotateCompleted waypointReached stepGpsTime_ns s).mCurrentLegIndex
      = s.mCurrentLegIndex ∧
    (doSimStep rotateCompleted waypointReached stepGpsTime_ns s).events
      = s.events ++ [StepEvent.legComplete] := by
  subst hrot; subst hwp
  refine ⟨?_, ?_, ?_⟩ <;> simp [doSimStep]

/-- C7 (witness): leg completion at a concrete state leaves the clock at
12345 ns and appends only the leg-completion event. -/
theorem C7_legCompletion_witness :
    (true = true) ∧ (true = true) ∧
    ((doSimStep true true 1000000000 ⟨12345, 7, []⟩).currentGpsTime_ns = 12345 ∧
     (doSimStep true true 1000000000 ⟨12345, 7, []⟩).mCurrentLegIndex = 7 ∧
     (doSimStep true true 1000000000 ⟨12345, 7, []⟩).events
       = [] ++ [StepEvent.legComplete]) :=
  ⟨rfl, rfl,
   C7_legCompletion true true 1000000000 ⟨12345, 7, []⟩ rfl rfl⟩

/-- C3 (counterexample): the terminal flush is not as claimed. With a callback
registered, callback frequency 1, file export enabled and residual buffered
data, the loop-exit tail notifies the scanner first, then marks the run
finished, and only then invokes the callback — and it does not clear the
buffers, unlike the periodic flush. -/
theorem C3_counterexample :
    (startExitTail true 1 true "out" ⟨[5], [7], [], false⟩).cycleMeasurements
      = [5] ∧
    ¬ ((startExitTail true 1 true "out" ⟨[5], [7], [], false⟩).cycleMeasurements
        = [] ∧
       (startExitTail true 1 true "out" ⟨[5], [7], [], false⟩).cycleTrajectories
        = []) ∧
    (startExitTail true 1 true "out" ⟨[5], [7], [], false⟩).events
      = [SimEvent.scannerFinished, SimEvent.markFinished,
         SimEvent.callbackInvoked [5] [7] "out"] := by
  refine ⟨rfl, ?_, rfl⟩
  intro h
  exact absurd h.1 (by decide)

/-- C3 (amended): when the main loop of start exits, the Controller first
notifies the scanner of completion, then marks the run finished, and only then
— when a callback is registered and the callback frequency is positive —
performs a terminal callback invocation with the accumulated measurement
buffer, trajectory buffer and resolved output path; unlike the periodic flush
it does not clear either buffer. -/
theorem C3_shutdownFlush (hasCallback : Bool) (callbackFrequency : ℕ)
    (exportToFile : Bool) (mwPath : String) (s : ShutdownState)
    (hcb : hasCallback = true) (hfreq : 0 < callbackFrequency) :
    (startExitTail hasCallback callbackFrequency exportToFile mwPath s).events
      = s.events ++ [SimEvent.scannerFinished, SimEvent.markFinished,
          SimEvent.callbackInvoked s.cycleMeasurements s.cycleTrajectories
            (resolveOutPath exportToFile mwPath)] ∧
    (startExitTail hasCallback callbackFrequency exportToFile mwPath
        s).cycleMeasurements = s.cycleMeasurements ∧
    (startExitTail hasCallback callbackFrequency exportToFile mwPath
        s).cycleTrajectories = s.cycleTrajectories ∧
    (startExitTail hasCallback callbackFrequency exportToFile mwPath s).finished
      = true := by
  subst hcb
  refine ⟨?_, ?_, ?_, ?_⟩ <;>
    simp [startExitTail, shutdown, hfreq]

/-- C3 (witness): the amended shutdown sequence instantiated at callback
frequency 1 with buffered data [1] and [2] and output path "o". -/
theorem C3_shutdownFlush_witness :
    (true = true) ∧ 0 < 1 ∧
    ((startExitTail true 1 true "o" ⟨[1], [2], [], false⟩).events
       = [] ++ [SimEvent.scannerFinished, SimEvent.markFinished,
           SimEvent.callbackInvoked [1] [2] (resolveOutPath true "o")] ∧
     (startExitTail true 1 true "o" ⟨[1], [2], [], false⟩).cycleMeasurements
       = [1] ∧
     (startExitTail true 1 true "o" ⟨[1], [2], [], false⟩).cycleTrajectories
       = [2] ∧
     (startExitTail true 1 true "o" ⟨[1], [2], [], false⟩).finished = true) :=
  ⟨rfl, Nat.one_pos,
   C3_shutdownFlush true 1 true "o" ⟨[1], [2], [], false⟩ rfl Nat.one_pos⟩

/-- When the step counter has reached the callback frequency, the loop body
delivers the accumulated buffers, clears them and resets the counter. -/
theorem loopBody_flush (N : ℕ) (s : LoopState) (st : List ℕ × List ℕ)
    (h : s.iter = N) :
    loopBody true N s st =
      ⟨1, [], [],
       s.flushes ++ [(s.cycleMeasurements ++ st.1, s.cycleTrajectories ++ st.2)]⟩ := by
  simp [loopBody, h]

/-- When the step counter has not yet reached the callback frequency, the loop
body only accumulates the step's records and increments the counter. -/
theorem loopBody_noflush (N : ℕ) (s : LoopState) (st : List ℕ × List ℕ)
    (h : ¬ s.iter = N) :
    loopBody true N s st =
      ⟨s.iter + 1, s.cycleMeasurements ++ st.1, s.cycleTrajectories ++ st.2,
       s.flushes⟩ := by
  simp [loopBody, h]

/-- Callback-count invariant of the main loop: starting from a counter value in
[1, N], the number of deliveries grows by `(steps + iter - 1) / N`. -/
theorem runLoop_flush_count (N : ℕ) (hN : 0 < N) :
    ∀ (steps : List (List ℕ × List ℕ)) (s : LoopState),
      1 ≤ s.iter → s.iter ≤ N →
      (runLoop true N s steps).flushes.length
        = s.flushes.length + (steps.length + s.iter - 1) / N := by
  intro steps
  induction steps with
  | nil =>
    intro s h1 h2
    simp only [runLoop, List.foldl_nil, List.length_nil]
    rw [Nat.div_eq_of_lt (by omega)]
    omega
  | cons st steps ih =>
    intro s h1 h2
    simp only [runLoop, List.foldl_cons, List.length_cons]
    by_cases hc : s.iter = N
    · rw [loopBody_flush N s st hc]
      have hrec := ih ⟨1, [], [],
        s.flushes ++ [(s.cycleMeasurements ++ st.1, s.cycleTrajectories ++ st.2)]⟩
        (by simp) (by simpa using hN)
      simp only [runLoop] at hrec
      rw [hrec]
      simp only [List.length_append, List.length_singleton]
      have hdiv : (steps.length + 1 + s.iter - 1) / N = steps.length / N + 1 := by
        rw [show steps.length + 1 + s.iter - 1 = steps.length + N by omega,
            Nat.add_div_right _ hN]
      have hdiv2 : (steps.length + 1 - 1) / N = steps.length / N := by
        rw [show steps.length + 1 - 1 = steps.length by omega]
      omega
    · rw [loopBody_noflush N s st hc]
      have hrec := ih ⟨s.iter + 1, s.cycleMeasurements ++ st.1,
        s.cycleTrajectories ++ st.2, s.flushes⟩ (by simp) (by simp; omega)
      simp only [runLoop] at hrec
      rw [hrec]
      have hdiv : steps.length + 1 + s.iter - 1 = steps.length + (s.iter + 1) - 1 := by
        omega
      rw [hdiv]

/-- C4: with a registered callback and callback frequency N > 0, the main loop
delivers exactly one callback per N completed steps (`steps / N` deliveries
after any number of steps from loop entry), and any loop iteration that
delivers a callback leaves both cycle buffers empty. -/
theorem C4_callbackCadence (N : ℕ) (steps : List (List ℕ × List ℕ))
    (s : LoopState) (st : List ℕ × List ℕ) (hN : 0 < N)
    (hfired : (loopBody true N s st).flushes.length ≠ s.flushes.length) :
    (runLoop true N initLoopState steps).flushes.length = steps.length / N ∧
    (loopBody true N s st).cycleMeasurements = [] ∧
    (loopBody true N s st).cycleTrajectories = [] := by
  refine ⟨?_, ?_⟩
  · have := runLoop_flush_count N hN steps initLoopState (by simp [initLoopState])
      (by simpa [initLoopState] using hN)
    simpa [initLoopState] using this
  · by_cases hc : s.iter = N
    · rw [loopBody_flush N s st hc]
      exact ⟨rfl, rfl⟩
    · rw [loopBody_noflush N s st hc] at hfired
      simp at hfired

/-- C4 (witness): cadence instantiated at frequency 2 over three steps (one
delivery, `3 / 2 = 1`), with a firing loop iteration leaving both buffers
empty. -/
theorem C4_callbackCadence_witness :
    0 < 2 ∧
    (loopBody true 2 ⟨2, [9], [8], []⟩ ([1], [2])).flushes.length ≠
      (LoopState.mk 2 [9] [8] []).flushes.length ∧
    ((runLoop true 2 initLoopState
        [([1], []), ([2], []), ([3], [])]).flushes.length = 3 / 2 ∧
     (loopBody true 2 ⟨2, [9], [8], []⟩ ([1], [2])).cycleMeasurements = [] ∧
     (loopBody true 2 ⟨2, [9], [8], []⟩ ([1], [2])).cycleTrajectories = []) :=
  ⟨Nat.zero_lt_two, by decide,
   C4_callbackCadence 2 [([1], []), ([2], []), ([3], [])]
     ⟨2, [9], [8], []⟩ ([1], [2]) Nat.zero_lt_two (by decide)⟩

/-- C6: clock-origin resolution fails exactly when the non-empty fixed-start
string fails to parse — as an exact "YYYY-MM-DD hh:mm:ss" date-time when it
contains a colon, as a POSIX-seconds integer literal otherwise — and on
failure the propagated error carries the offending input and the accepted
formats; in particular "2020-01-06 00:00:00" resolves without error and
"not-a-date" fails with that error. -/
theorem C6_parseFatal (s : List Char) (wc : ℤ) (hne : s ≠ []) :
    (isOkE (calcCurrentGpsTimeE s wc) = false ↔
      (if s.contains ':' then dateTimeStrToSeconds s = none
       else parsePosixLong s = none)) ∧
    (isOkE (calcCurrentGpsTimeE s wc) = false →
      errOf (calcCurrentGpsTimeE s wc) = errMsg s) ∧
    isOkE (calcCurrentGpsTimeE ("2020-01-06 00:00:00").toList 0) = true ∧
    calcCurrentGpsTimeE ("not-a-date").toList 0
      = Except.error (errMsg ("not-a-date").toList) := by
  refine ⟨?_, ?_, by decide, by rfl⟩
  · unfold calcCurrentGpsTimeE
    rw [if_pos hne]
    by_cases hc : s.contains ':'
    · simp only [hc, if_true]
      cases hds : dateTimeStrToSeconds s <;> simp [isOkE]
    · simp only [hc, if_false, Bool.false_eq_true]
      cases hps : parsePosixLong s <;> simp [isOkE]
  · unfold calcCurrentGpsTimeE
    rw [if_pos hne]
    by_cases hc : s.contains ':'
    · simp only [hc, if_true]
      cases hds : dateTimeStrToSeconds s <;> simp [isOkE, errOf]
    · simp only [hc, Bool.false_eq_true, if_false]
      cases hps : parsePosixLong s <;> simp [isOkE, errOf]

/-- C6 (witness): the resolution behaviour instantiated at the one-character
fixed start "5", which parses as the POSIX literal 5 and so resolves without
error. -/
theorem C6_parseFatal_witness :
    ("5").toList ≠ [] ∧
    ((isOkE (calcCurrentGpsTimeE ("5").toList 0) = false ↔
       (if ("5").toList.contains ':'
        then dateTimeStrToSeconds ("5").toList = none
        else parsePosixLong ("5").toList = none)) ∧
     (isOkE (calcCurrentGpsTimeE ("5").toList 0) = false →
       errOf (calcCurrentGpsTimeE ("5").toList 0) = errMsg ("5").toList) ∧
     isOkE (calcCurrentGpsTimeE ("2020-01-06 00:00:00").toList 0) = true ∧
     calcCurrentGpsTimeE ("not-a-date").toList 0
       = Except.error (errMsg ("not-a-date").toList)) :=
  ⟨by decide, C6_parseFatal ("5").toList 0 (by decide)⟩

/-- C5: the legacy beam-width form of the emitted power agrees with the direct
form whenever the wavelength and the beam waist radius are non-zero and the
ranges are not both zero, and the direct form computes
`I0 / exp(2π² r² w0² / (λ² (R0² + R²)))`. -/
theorem C5_emittedPowerEquiv (I0 lambda R R0 r w0 : ℝ)
    (hl : lambda ≠ 0) (hw : w0 ≠ 0) (hR : R0 ^ 2 + R ^ 2 ≠ 0) :
    calcEmittedPowerLegacy I0 lambda R R0 r w0
      = calcEmittedPower I0 lambda R R0 r w0 ∧
    calcEmittedPower I0 lambda R R0 r w0
      = I0 / Real.exp (2 * Real.pi ^ 2 * r ^ 2 * w0 ^ 2
          / (lambda ^ 2 * (R0 ^ 2 + R ^ 2))) := by
  have hpi : Real.pi ≠ 0 := Real.pi_ne_zero
  constructor
  · simp only [calcEmittedPowerLegacy, calcEmittedPower]
    have hS : 0 ≤ lambda * R0 / (Real.pi * w0 * w0) * (lambda * R0 / (Real.pi * w0 * w0))
        + lambda * R / (Real.pi * w0 * w0) * (lambda * R / (Real.pi * w0 * w0)) :=
      add_nonneg (mul_self_nonneg _) (mul_self_nonneg _)
    have hww : w0 * Real.sqrt
          (lambda * R0 / (Real.pi * w0 * w0) * (lambda * R0 / (Real.pi * w0 * w0))
            + lambda * R / (Real.pi * w0 * w0) * (lambda * R / (Real.pi * w0 * w0)))
        * (w0 * Real.sqrt
          (lambda * R0 / (Real.pi * w0 * w0) * (lambda * R0 / (Real.pi * w0 * w0))
            + lambda * R / (Real.pi * w0 * w0) * (lambda * R / (Real.pi * w0 * w0))))
        = lambda ^ 2 * (R0 ^ 2 + R ^ 2) / (Real.pi ^ 2 * w0 ^ 2) := by
      rw [mul_mul_mul_comm, Real.mul_self_sqrt hS]
      field_simp
      ring
    rw [hww]
    have hexp : -2 * r * r / (lambda ^ 2 * (R0 ^ 2 + R ^ 2) / (Real.pi ^ 2 * w0 ^ 2))
        = -(PI_SQUARED_2 * r * r * w0 * w0 / (lambda * lambda * (R0 * R0 + R * R))) := by
      unfold PI_SQUARED_2
      rw [div_div_eq_mul_div,
          show lambda * lambda * (R0 * R0 + R * R)
            = lambda ^ 2 * (R0 ^ 2 + R ^ 2) from by ring,
          ← neg_div]
      congr 1
      ring
    rw [hexp, Real.exp_neg]
    ring
  · simp only [calcEmittedPower]
    have harg : PI_SQUARED_2 * r * r * w0 * w0 / (lambda * lambda * (R0 * R0 + R * R))
        = 2 * Real.pi ^ 2 * r ^ 2 * w0 ^ 2 / (lambda ^ 2 * (R0 ^ 2 + R ^ 2)) := by
      unfold PI_SQUARED_2
      ring_nf
    rw [harg]

/-- C5 (witness): the two emitted-power forms agree at
I0 = 1, λ = 1, R = 1, R0 = 0, r = 0, w0 = 1. -/
theorem C5_emittedPowerEquiv_witness :
    (1 : ℝ) ≠ 0 ∧ (0 : ℝ) ^ 2 + (1 : ℝ) ^ 2 ≠ 0 ∧
    (calcEmittedPowerLegacy 1 1 1 0 0 1 = calcEmittedPower 1 1 1 0 0 1 ∧
     calcEmittedPower 1 1 1 0 0 1
       = 1 / Real.exp (2 * Real.pi ^ 2 * 0 ^ 2 * 1 ^ 2
           / (1 ^ 2 * (0 ^ 2 + 1 ^ 2)))) :=
  ⟨by norm_num, by norm_num,
   C5_emittedPowerEquiv 1 1 1 0 0 1 (by norm_num) (by norm_num) (by norm_num)⟩

/-- C8: for non-negative range and extinction coefficient the atmospheric
factor equals `exp(-2·R·ae)`, lies in (0, 1], and is antitone in the range and
in the extinction coefficient. -/
theorem C8_atmosphericFactor (R ae R2 ae2 : ℝ)
    (hR : 0 ≤ R) (hae : 0 ≤ ae) (hR2 : R ≤ R2) (hae2 : ae ≤ ae2) :
    calcAtmosphericFactor R ae = Real.exp (-(2 * R * ae)) ∧
    0 < calcAtmosphericFactor R ae ∧
    calcAtmosphericFactor R ae ≤ 1 ∧
    calcAtmosphericFactor R2 ae ≤ calcAtmosphericFactor R ae ∧
    calcAtmosphericFactor R ae2 ≤ calcAtmosphericFactor R ae := by
  unfold calcAtmosphericFactor
  refine ⟨by norm_num, Real.exp_pos _, ?_, ?_, ?_⟩
  · rw [Real.exp_le_one_iff]
    nlinarith
  · rw [Real.exp_le_exp]
    nlinarith
  · rw [Real.exp_le_exp]
    nlinarith

/-- C8 (witness): the atmospheric-factor properties instantiated at
R = 0 ≤ 1 = R2 and ae = 0 ≤ 1 = ae2. -/
theorem C8_atmosphericFactor_witness :
    (0 : ℝ) ≤ 0 ∧ (0 : ℝ) ≤ 1 ∧
    (calcAtmosphericFactor 0 0 = Real.exp (-(2 * 0 * 0)) ∧
     0 < calcAtmosphericFactor 0 0 ∧
     calcAtmosphericFactor 0 0 ≤ 1 ∧
     calcAtmosphericFactor 1 0 ≤ calcAtmosphericFactor 0 0 ∧
     calcAtmosphericFactor 0 1 ≤ calcAtmosphericFactor 0 0) :=
  ⟨le_refl _, by norm_num,
   C8_atmosphericFactor 0 0 1 1 (le_refl _) (le_refl _) (by norm_num) (by norm_num)⟩

/-- C9: on the documented domain the Phong reflectance agrees with the
specification's sum of diffuse term `(1-ks)·cos(φ)` and specular term
`ks·|cos(φ*)|^Ns` with the folded specular angle; at φ = 0, ks = 0 it equals
1, and at φ = 0, ks = 1 it equals the specular term alone. -/
theorem C9_phongBDRF (phi ks Ns : ℝ)
    (h0 : 0 ≤ phi) (h1 : phi ≤ Real.pi) (h2 : 0 ≤ ks) (h3 : ks ≤ 1)
    (h4 : 0 ≤ Ns) :
    phongBDRF phi ks Ns = reflectanceSpec phi ks Ns ∧
    phongBDRF 0 0 Ns = 1 ∧
    phongBDRF 0 1 Ns = 1 * |Real.cos 0| ^ Ns := by
  refine ⟨?_, ?_, ?_⟩
  · simp only [phongBDRF, reflectanceSpec, PI_HALF]
  · simp only [phongBDRF, PI_HALF]
    rw [if_pos (by positivity)]
    simp
  · simp only [phongBDRF, PI_HALF]
    rw [if_pos (by positivity)]
    ring_nf

/-- C9 (witness): the reflectance properties instantiated at
φ = 0, ks = 0, Ns = 0. -/
theorem C9_phongBDRF_witness :
    (0 : ℝ) ≤ 0 ∧ (0 : ℝ) ≤ Real.pi ∧ (0 : ℝ) ≤ 1 ∧
    (phongBDRF 0 0 0 = reflectanceSpec 0 0 0 ∧
     phongBDRF 0 0 0 = 1 ∧
     phongBDRF 0 1 0 = 1 * |Real.cos 0| ^ (0 : ℝ)) :=
  ⟨le_refl _, Real.pi_nonneg, by norm_num,
   C9_phongBDRF 0 0 0 (le_refl _) Real.pi_nonneg (le_refl _) (by norm_num)
     (le_refl _)⟩

/-- C10: inside the documented domain the Phong reflectance can be negative:
at incidence angle π with specularity 0 and exponent 1 it evaluates to
cos(π) = -1, so the returned reflectance is not guaranteed non-negative. -/
theorem C10_negativeReflectance :
    phongBDRF Real.pi 0 1 = -1 ∧ phongBDRF Real.pi 0 1 < 0 := by
  have hval : phongBDRF Real.pi 0 1 = -1 := by
    simp [phongBDRF, Real.cos_pi]
  exact ⟨hval, by rw [hval]; norm_num⟩
